import Mathlib

/-!
Verification development for the AI-asset web application's core pipeline
(suggestion fetching, chapter refinement, chapter generation, metadata
synthesis).  The HTTP handlers in
`src/app/api/autocomplete/route.ts`, `src/app/api/tiktok/train/route.ts`,
`src/app/api/analyze/route.ts` and `src/app/api/metadata/route.ts` are
shallowly embedded below: JSON values are an inductive type, `JSON.parse`
is an executable parser, the network and the generative model are oracles
the theorems quantify over, and thrown-and-caught JavaScript exceptions
are explicit `Except`/fallback values.
-/

set_option autoImplicit false

/-- A JSON value, as produced by `JSON.parse`.  A number is the exact
decimal rational `mantissa * 10 ^ exp10`; the parser below emits the
canonical representative (mantissa zero or not divisible by ten), so two
numeric literals denoting the same rational parse to equal values. -/
inductive Json where
  | null : Json
  | bool : Bool → Json
  | num : (mantissa : Int) → (exp10 : Int) → Json
  | str : String → Json
  | arr : List Json → Json
  | obj : List (String × Json) → Json

/-- Look up a key in an object's field list (first occurrence; the parser
below never produces duplicate keys, mirroring `JSON.parse` semantics). -/
def lookupField (key : String) : List (String × Json) → Option Json
  | [] => none
  | (k, v) :: rest => if k = key then some v else lookupField key rest

/-- Set a key in a field list: an existing key keeps its position and gets the
new value (JavaScript object-assignment semantics); a new key is appended. -/
def insertField (fields : List (String × Json)) (key : String) (v : Json) :
    List (String × Json) :=
  match fields with
  | [] => [(key, v)]
  | (k, w) :: rest =>
    if k = key then (k, v) :: rest else (k, w) :: insertField rest key v

theorem lookupField_insertField_self (fields : List (String × Json))
    (key : String) (v : Json) :
    lookupField key (insertField fields key v) = some v := by
  induction fields with
  | nil => simp [insertField, lookupField]
  | cons p rest ih =>
    obtain ⟨k, w⟩ := p
    by_cases h : k = key
    · subst h; simp [insertField, lookupField]
    · simp [insertField, lookupField, h, ih]

theorem lookupField_insertField_ne (fields : List (String × Json))
    (key other : String) (v : Json) (h : other ≠ key) :
    lookupField other (insertField fields key v) = lookupField other fields := by
  induction fields with
  | nil => simp [insertField, lookupField, Ne.symm h]
  | cons p rest ih =>
    obtain ⟨k, w⟩ := p
    by_cases hk : k = key
    · subst hk
      simp [insertField, lookupField, Ne.symm h]
    · by_cases ho : k = other <;> simp [insertField, lookupField, hk, ho, ih, h]

/-! ### An executable model of `JSON.parse`

The routes parse model and upstream responses with JavaScript's
`JSON.parse`.  We model it with a recursive-descent parser over the
character list of the input, faithful to the JSON grammar accepted by
`JSON.parse`: optional whitespace, `null`/`true`/`false`, strings with the
standard escape sequences, numbers (no leading zeros, optional fraction
and exponent), arrays, and objects (a duplicate key keeps its first
position and its last value). -/

/-- The JSON whitespace characters. -/
def jsonWs (c : Char) : Bool :=
  c = ' ' || c = '\t' || c = '\n' || c = '\r'

/-- Drop leading JSON whitespace. -/
def skipWs (cs : List Char) : List Char :=
  cs.dropWhile jsonWs

/-- Value of a hexadecimal digit. -/
def hexVal (c : Char) : Option Nat :=
  if '0' ≤ c ∧ c ≤ '9' then some (c.toNat - 48)
  else if 'a' ≤ c ∧ c ≤ 'f' then some (c.toNat - 87)
  else if 'A' ≤ c ∧ c ≤ 'F' then some (c.toNat - 70)
  else none

/-- The single-character escape sequences accepted by `JSON.parse`. -/
def escChar : Char → Option Char
  | '"' => some '"'
  | '\\' => some '\\'
  | '/' => some '/'
  | 'b' => some (Char.ofNat 8)
  | 'f' => some (Char.ofNat 12)
  | 'n' => some '\n'
  | 'r' => some '\r'
  | 't' => some '\t'
  | _ => none

/-- Parse the body of a JSON string after the opening quote, returning the
decoded characters and the remaining input.  Unescaped control characters
are rejected, as in `JSON.parse`.  (A `\u` escape denoting an unpaired
surrogate is approximated by `Char.ofNat`'s fallback, a corner no theorem
below touches.) -/
def strBody : List Char → Option (List Char × List Char)
  | [] => none
  | '"' :: rest => some ([], rest)
  | '\\' :: 'u' :: a :: b :: c :: d :: rest =>
    match hexVal a, hexVal b, hexVal c, hexVal d with
    | some ha, some hb, some hc, some hd =>
      (strBody rest).map fun p =>
        (Char.ofNat (((ha * 16 + hb) * 16 + hc) * 16 + hd) :: p.1, p.2)
    | _, _, _, _ => none
  | '\\' :: e :: rest =>
    match escChar e with
    | some c => (strBody rest).map fun p => (c :: p.1, p.2)
    | none => none
  | c :: rest =>
    if c.toNat < 32 then none
    else (strBody rest).map fun p => (c :: p.1, p.2)

/-- Decimal value of a digit list. -/
def digitsToNat (ds : List Char) : Nat :=
  ds.foldl (fun n c => 10 * n + (c.toNat - 48)) 0

/-- Move factors of ten from the mantissa into the exponent (`fuel` bounds
the loop; the caller passes the mantissa's absolute value). -/
def stripTens : Nat → Int → Int → Int × Int
  | 0, m, e => (m, e)
  | fuel + 1, m, e => if m % 10 = 0 then stripTens fuel (m / 10) (e + 1) else (m, e)

/-- The canonical representative of `m * 10 ^ e`: zero is `num 0 0`, and a
nonzero mantissa is not divisible by ten. -/
def canonNum (m e : Int) : Json :=
  if m = 0 then Json.num 0 0
  else
    let p := stripTens m.natAbs m e
    Json.num p.1 p.2

/-- Parse a JSON number starting at the current position: optional minus,
integer part without leading zeros, optional fraction, optional exponent.
The value is the exact decimal rational the literal denotes, canonically
represented. -/
def parseNumber (cs : List Char) : Option (Json × List Char) :=
  let (neg, cs1) := match cs with
    | '-' :: rest => (true, rest)
    | _ => (false, cs)
  match cs1 with
  | [] => none
  | c :: rest =>
    if ¬ c.isDigit then none
    else
      let (intDs, cs2) :=
        if c = '0' then ([c], rest)
        else (cs1.takeWhile Char.isDigit, cs1.dropWhile Char.isDigit)
      let (fracDs, cs3) :=
        match cs2 with
        | '.' :: cs2a => (cs2a.takeWhile Char.isDigit, cs2a.dropWhile Char.isDigit)
        | _ => ([], cs2)
      let fracOk : Bool :=
        match cs2 with
        | '.' :: _ => ¬ fracDs.isEmpty
        | _ => true
      let expPart : Option (Int × List Char) :=
        match cs3 with
        | 'e' :: cs3a | 'E' :: cs3a =>
          let (esign, cs3b) :=
            match cs3a with
            | '+' :: r => ((1 : Int), r)
            | '-' :: r => ((-1 : Int), r)
            | _ => ((1 : Int), cs3a)
          let eds := cs3b.takeWhile Char.isDigit
          if eds.isEmpty then none
          else some (esign * digitsToNat eds, cs3b.dropWhile Char.isDigit)
        | _ => some (0, cs3)
      match expPart, fracOk with
      | some (e, cs4), true =>
        let mantissa : Int := (if neg then -1 else 1) * digitsToNat (intDs ++ fracDs)
        some (canonNum mantissa (e - fracDs.length), cs4)
      | _, _ => none

/-- Apply the members of an object literal left to right: a repeated key
keeps its first position and its last value, as `JSON.parse` does. -/
def dedupFields (raw : List (String × Json)) : List (String × Json) :=
  raw.foldl (fun acc kv => insertField acc kv.1 kv.2) []

mutual

/-- Parse one JSON value (with leading whitespace), returning it and the
remaining input.  `fuel` bounds the recursion depth; `parseJson` supplies
enough for any input. -/
def parseVal : Nat → List Char → Option (Json × List Char)
  | 0, _ => none
  | fuel + 1, cs =>
    match skipWs cs with
    | 'n' :: 'u' :: 'l' :: 'l' :: r => some (Json.null, r)
    | 't' :: 'r' :: 'u' :: 'e' :: r => some (Json.bool true, r)
    | 'f' :: 'a' :: 'l' :: 's' :: 'e' :: r => some (Json.bool false, r)
    | '"' :: r => (strBody r).map fun p => (Json.str (String.mk p.1), p.2)
    | '[' :: r =>
      (match skipWs r with
       | ']' :: r2 => some (Json.arr [], r2)
       | _ => (parseArrItems fuel r).map fun p => (Json.arr p.1, p.2))
    | '\x7b' :: r =>
      (match skipWs r with
       | '\x7d' :: r2 => some (Json.obj [], r2)
       | _ => (parseObjItems fuel r).map fun p => (Json.obj (dedupFields p.1), p.2))
    | cs1 => parseNumber cs1

/-- Parse the comma-separated items of a non-empty array, up to and
including the closing bracket. -/
def parseArrItems : Nat → List Char → Option (List Json × List Char)
  | 0, _ => none
  | fuel + 1, cs =>
    match parseVal fuel cs with
    | none => none
    | some (v, rest) =>
      match skipWs rest with
      | ',' :: r2 => (parseArrItems fuel r2).map fun p => (v :: p.1, p.2)
      | ']' :: r2 => some ([v], r2)
      | _ => none

/-- Parse the comma-separated members of a non-empty object in source
order, up to and including the closing brace. -/
def parseObjItems : Nat → List Char → Option (List (String × Json) × List Char)
  | 0, _ => none
  | fuel + 1, cs =>
    match skipWs cs with
    | '"' :: r =>
      match strBody r with
      | none => none
      | some (keyChars, rest) =>
        match skipWs rest with
        | ':' :: r2 =>
          match parseVal fuel r2 with
          | none => none
          | some (v, rest2) =>
            match skipWs rest2 with
            | ',' :: r3 =>
              (parseObjItems fuel r3).map fun p =>
                ((String.mk keyChars, v) :: p.1, p.2)
            | '\x7d' :: r3 => some ([(String.mk keyChars, v)], r3)
            | _ => none
        | _ => none
    | _ => none

end

/-- The model of `JSON.parse`: parse one value and require only whitespace
to follow; any other input is a parse failure (`none` models the thrown
`SyntaxError` being caught by the surrounding `try`). -/
def parseJson (s : String) : Option Json :=
  match parseVal (2 * s.data.length + 8) s.data with
  | some (v, rest) => if skipWs rest = [] then some v else none
  | none => none

example : parseJson "[\"q\",[[\"a\",0],[\"b\",0]]]"
    = some (Json.arr [Json.str "q",
        Json.arr [Json.arr [Json.str "a", Json.num 0 0],
                  Json.arr [Json.str "b", Json.num 0 0]]]) := by rfl

example : parseJson "hello" = none := by rfl

example : parseJson " -12.5e1 " = some (Json.num (-125) 0) := by rfl

example : parseJson "1e1" = parseJson "10.0" := by rfl

/-! ### Markdown fence stripping and trimming

Every model-calling route post-processes the model's text with
`responseText.replace(/```json/g, "").replace(/```/g, "").trim()`. -/

/-- Delete every occurrence of `pat` from the input, scanning left to
right without rescanning (the semantics of `String.replace` with a global
regex and an empty replacement).  `fuel` bounds the scan; callers pass the
input length. -/
def stripAll (pat : List Char) : Nat → List Char → List Char
  | 0, cs => cs
  | _ + 1, [] => []
  | fuel + 1, c :: cs =>
    if pat ≠ [] ∧ pat.isPrefixOf (c :: cs) then
      stripAll pat fuel ((c :: cs).drop pat.length)
    else
      c :: stripAll pat fuel cs

/-- Whitespace trim on both ends, the model of `String.prototype.trim`. -/
def trimChars (cs : List Char) : List Char :=
  ((cs.dropWhile Char.isWhitespace).reverse.dropWhile Char.isWhitespace).reverse

/-- The shared post-processing of model output before `JSON.parse`:
delete every ` ```json `, then every ` ``` `, then trim. -/
def cleanModelText (s : String) : String :=
  let step1 := stripAll "```json".data s.data.length s.data
  let step2 := stripAll "```".data step1.length step1
  String.mk (trimChars step2)

example : cleanModelText " ```json\n[1]\n``` " = "[1]" := by rfl

/-! ### The autocomplete response envelope

Both suggestion-fetching call sites run
`text.match(/window\.google\.ac\.h\((.*)\)/)` and use capture group 1 when
it is non-empty.  `.` does not match a newline and `.*` is greedy, so at
the leftmost position where the literal head matches and a `)` follows on
the same line, the capture is everything after the head up to the last
`)` of that line. -/

/-- The literal head of the callback envelope. -/
def envHead : List Char := "window.google.ac.h(".data

/-- The current line: characters up to the first newline. -/
def lineOf (cs : List Char) : List Char :=
  cs.takeWhile (· ≠ '\n')

/-- The characters before the last `)`, if any. -/
def beforeLastParen (cs : List Char) : Option (List Char) :=
  match cs.reverse.dropWhile (· ≠ ')') with
  | [] => none
  | _ :: rest => some rest.reverse

/-- Leftmost match of the envelope regex: try each position in turn; where
the literal head matches and the rest of its line contains `)`, capture up
to that line's last `)`. -/
def matchEnvelope : List Char → Option (List Char)
  | [] => none
  | c :: cs =>
    if envHead.isPrefixOf (c :: cs) then
      match beforeLastParen (lineOf ((c :: cs).drop envHead.length)) with
      | some cap => some cap
      | none => matchEnvelope cs
    else
      matchEnvelope cs

/-- The capture the routes act on: group 1 of the envelope regex when the
match succeeded and the capture is non-empty (an empty capture is falsy in
JavaScript, so `if (match && match[1])` sends it to the fallback branch). -/
def envCapture (text : String) : Option String :=
  match matchEnvelope text.data with
  | some [] => none
  | some cs => some (String.mk cs)
  | none => none

example :
    envCapture "window.google.ac.h([\"q\",[[\"a\",0],[\"b\",0]]])"
      = some "[\"q\",[[\"a\",0],[\"b\",0]]]" := by rfl

example : envCapture "[\"q\",[[\"a\",0]]]" = none := by rfl

/-! ### JavaScript value helpers

The routes are untyped JavaScript; the few property accesses they perform
on parsed JSON are modelled explicitly.  `none` stands for `undefined`. -/

/-- Named property access `v.key` for the non-numeric keys the routes use
(`chapters`, `title`, `description`): an object looks the key up, every
other value yields `undefined`.  (`null.key` throws; the call sites handle
that case before calling this.) -/
def jsProp (v : Json) (key : String) : Option Json :=
  match v with
  | Json.obj fields => lookupField key fields
  | _ => none

/-- Indexed access `v[i]`: arrays index, strings yield one-character
strings, objects look up the decimal key, everything else (and an
out-of-range index) is `undefined`. -/
def jsIndex (v : Json) (i : Nat) : Option Json :=
  match v with
  | Json.arr xs => xs.get? i
  | Json.str s => if i < s.length then some (Json.str ((s.drop i).take 1)) else none
  | Json.obj fields => lookupField (toString i) fields
  | _ => none

/-- `item[0]` as used in `.map((item) => item[0])`.  Reading a property of
`null` throws (`Except.error`); elsewhere an absent index is `undefined`,
which the later JSON serialisation of the response turns into `null`. -/
def jsIndexZero (item : Json) : Except Unit Json :=
  match item with
  | Json.null => Except.error ()
  | _ =>
    match jsIndex item 0 with
    | some x => Except.ok x
    | none => Except.ok Json.null

/-- The own enumerable properties of a value, as object spread `{...v}`
enumerates them: an object's fields, an array's or string's indexed
elements, nothing for primitives. -/
def objFields : Json → List (String × Json)
  | Json.obj fields => fields
  | Json.arr xs => xs.enum.map fun p => (toString p.1, p.2)
  | Json.str s => s.data.enum.map fun p => (toString p.1, Json.str (String.mk [p.2]))
  | _ => []

/-- The object spread `{ ...chapter, suggestions }`: the chapter's own
properties in order, with `suggestions` overwritten in place or appended. -/
def jsSpreadSuggestions (chapter : Json) (suggestions : Json) : Json :=
  Json.obj (insertField (objFields chapter) "suggestions" suggestions)

/-! ### The Suggestion Fetcher (src/app/api/autocomplete/route.ts and the
fan-out inside src/app/api/tiktok/train/route.ts)

The network is an oracle: one upstream interaction either throws (network
error, covering `fetch` and `res.text()` rejections) or produces a status
code and a body text.  Neither call site ever reads the status code. -/

/-- Outcome of one upstream autocomplete request. -/
inductive FetchOutcome where
  | netError : FetchOutcome
  | success : (status : Nat) → (body : String) → FetchOutcome

/-- The envelope branch shared by both call sites:
`const data = JSON.parse(match[1]); data[1].map((item) => item[0])`.
An error models a thrown exception: `JSON.parse` failing, or `.map` being
called on a non-array `data[1]` (including `undefined`). -/
def envelopeSuggestions (cap : String) : Except Unit (List Json) :=
  match parseJson cap with
  | none => Except.error ()
  | some data =>
    match jsIndex data 1 with
    | some (Json.arr items) => items.mapM jsIndexZero
    | _ => Except.error ()

/-- The per-chapter suggestion fetch inside the refine handler
(src/app/api/tiktok/train/route.ts lines 113-137).  The whole body sits in
a `try` whose `catch` yields `suggestions: []`, so every thrown exception
(network error, or a throw inside the envelope branch) degrades to the
empty list.  The bare-JSON fallback assigns `data[1]` verbatim when `data`
is an array of length above one; its own inner `catch` swallows parse
failures, leaving the initial `[]`. -/
def fetchSuggestionsBody (body : String) : Json :=
  match envCapture body with
  | some cap =>
    match envelopeSuggestions cap with
    | Except.ok items => Json.arr items
    | Except.error _ => Json.arr []
  | none =>
    match parseJson body with
    | some (Json.arr (_ :: second :: _)) => second
    | _ => Json.arr []

/-- The suggestion value attached to one chapter, as a function of the
upstream outcome. -/
def fetchSuggestions (outcome : FetchOutcome) : Json :=
  match outcome with
  | FetchOutcome.netError => Json.arr []
  | FetchOutcome.success _status body => fetchSuggestionsBody body

/-- An HTTP JSON response as produced by `NextResponse.json` (default
status 200 unless the handler passes one). -/
inductive ApiResponse where
  | json : (status : Nat) → (payload : Json) → ApiResponse

/-- The status code of a response. -/
def responseStatus : ApiResponse → Nat
  | ApiResponse.json status _ => status

/-- The `try` body of the GET handler once the fetch has resolved (or
rejected).  The outer `try/catch` turns any exception — the fetch
rejecting, or a throw inside the envelope branch — into a 500 error
response; only the bare-JSON fallback branch has an inner `catch` that
degrades to empty suggestions. -/
def autocompleteFetchBody (body : String) : ApiResponse :=
  match envCapture body with
  | some cap =>
    match envelopeSuggestions cap with
    | Except.ok items =>
      ApiResponse.json 200 (Json.obj [("suggestions", Json.arr items)])
    | Except.error _ =>
      ApiResponse.json 500 (Json.obj [("error", Json.str "Autocomplete failed")])
  | none =>
    match parseJson body with
    | some (Json.arr (_ :: second :: _)) =>
      ApiResponse.json 200 (Json.obj [("suggestions", second)])
    | _ => ApiResponse.json 200 (Json.obj [("suggestions", Json.arr [])])

/-- The whole `try` body as a function of the upstream outcome. -/
def autocompleteFetch (outcome : FetchOutcome) : ApiResponse :=
  match outcome with
  | FetchOutcome.netError =>
    ApiResponse.json 500 (Json.obj [("error", Json.str "Autocomplete failed")])
  | FetchOutcome.success _status body => autocompleteFetchBody body

/-- The GET handler of src/app/api/autocomplete/route.ts.  `query` is
`searchParams.get("q")` (`none` when absent).  A missing or empty query
short-circuits to empty suggestions; otherwise the handler fetches the
upstream autocomplete endpoint and runs `autocompleteFetch`. -/
def autocompleteGET (query : Option String) (outcome : FetchOutcome) : ApiResponse :=
  match query with
  | none => ApiResponse.json 200 (Json.obj [("suggestions", Json.arr [])])
  | some q =>
    if q.isEmpty then ApiResponse.json 200 (Json.obj [("suggestions", Json.arr [])])
    else autocompleteFetch outcome

/-! ### The Chapter Refiner (second handler in src/app/api/tiktok/train/route.ts)

The generative model is an oracle: a function from the enriched chapter
list (the only request-specific data in the prompt) to the response text.
The upstream autocomplete service is an oracle from the chapter's `title`
property to a `FetchOutcome` (the request URL is determined by that
property alone). -/

/-- Enrich one chapter (the body of the `chapters.map` callback): fetch
suggestions for `chapter.title` and return `{ ...chapter, suggestions }`.
For a `null` chapter, reading `.title` throws before the fetch; the
per-chapter `catch` returns `{ ...chapter, suggestions: [] }`. -/
def enrichChapter (env : Option Json → FetchOutcome) (chapter : Json) : Json :=
  match chapter with
  | Json.null => jsSpreadSuggestions Json.null (Json.arr [])
  | c => jsSpreadSuggestions c (fetchSuggestions (env (jsProp c "title")))

/-- Step A of the refine handler: the `Promise.all` fan-out over
`chapters.map`, reassembled in input order. -/
def enrichStep (env : Option Json → FetchOutcome) (chapters : List Json) : List Json :=
  chapters.map (enrichChapter env)

/-- The result of the refine POST handler. -/
inductive RefineResult where
  | error : (status : Nat) → (message : String) → RefineResult
  | ok : (chapters : Json) → RefineResult

/-- The status code of a refine result (200 for the success payload). -/
def refineResultStatus : RefineResult → Nat
  | RefineResult.error status _ => status
  | RefineResult.ok _ => 200

/-- The chapters payload of a refine result, when there is one. -/
def refineResultChapters : RefineResult → Option Json
  | RefineResult.error _ _ => none
  | RefineResult.ok c => some c

/-- Validation of the request body `const { chapters } = await req.json()`
followed by `if (!chapters || !Array.isArray(chapters))`. -/
inductive BodyCheck where
  | throwNull : BodyCheck
  | invalid : BodyCheck
  | okArr : (chapters : List Json) → BodyCheck

/-- Destructuring a `null` body throws a `TypeError`; otherwise the check
passes exactly when the `chapters` property is an array (an array is
always truthy, and every non-array value — including a missing property,
`null`, `false`, `0` or `""` — fails `!chapters || !Array.isArray`). -/
def checkBody (b : Json) : BodyCheck :=
  match b with
  | Json.null => BodyCheck.throwNull
  | b =>
    match jsProp b "chapters" with
    | some (Json.arr xs) => BodyCheck.okArr xs
    | _ => BodyCheck.invalid

/-- Step B and the fall-back of the refine handler: clean the model's
response, `JSON.parse` it, and on failure return the original chapters. -/
def refineCore (xs : List Json) (env : Option Json → FetchOutcome)
    (model : List Json → String) : Json :=
  match parseJson (cleanModelText (model (enrichStep env xs))) with
  | some refined => refined
  | none => Json.arr xs

/-- The refine POST handler (src/app/api/tiktok/train/route.ts lines
101-184).  `body` is the parsed request body (`none` when `req.json()`
itself throws on a malformed body); the outer `catch` maps every throw to
a 500 "Refinement failed" response. -/
def refinePOST (body : Option Json) (env : Option Json → FetchOutcome)
    (model : List Json → String) : RefineResult :=
  match body with
  | none => RefineResult.error 500 "Refinement failed"
  | some b =>
    match checkBody b with
    | BodyCheck.throwNull => RefineResult.error 500 "Refinement failed"
    | BodyCheck.invalid => RefineResult.error 400 "Invalid chapters data"
    | BodyCheck.okArr xs => RefineResult.ok (refineCore xs env model)

/-! ### The Chapter Generator (src/app/api/analyze/route.ts, both handler
variants)

Only the response post-processing decides the claims below: clean the
model text, `JSON.parse` it, and degrade to `[]` inside the `catch`. -/

/-- Post-processing of the main analyze handler (lines 116-126). -/
def generateChapters (responseText : String) : Json :=
  match parseJson (cleanModelText responseText) with
  | some chapters => chapters
  | none => Json.arr []

/-- Post-processing of the legacy analyze handler (lines 222-235); its
`catch` likewise leaves the chapters at `[]` (the commented regex fallback
is not implemented). -/
def generateChaptersLegacy (responseText : String) : Json :=
  match parseJson (cleanModelText responseText) with
  | some chapters => chapters
  | none => Json.arr []

/-! ### The Metadata Synthesizer (src/app/api/metadata/route.ts, both
handlers) -/

/-- The fixed promotional block (`fixedPrefix` in the source) that the
prompt instructs the model to start the description with. -/
def fixedIntro : String :=
  "Join My Community to Level Up: https://www.skool.com/vibecodepioneers\n\nBook a Meeting with Our Team: https://tally.so/r/3NBGBl\n\nSubscribe to my newsletter: https://bajulaiye.beehiiv.com/"

/-- `s` starts with `pre` (byte-for-byte on the character sequence). -/
def textStartsWith (s pre : String) : Bool :=
  pre.data.isPrefixOf s.data

/-- The degraded `VideoMetadata` built in the parse-failure `catch` of the
main path (lines 144-150) and of the legacy handler (lines 312-324): empty
title arrays, the raw (uncleaned) model text as the description, empty
tags. -/
def degradedMetadata (responseText : String) : Json :=
  Json.obj [("videoTitles", Json.arr []), ("thumbnailTitles", Json.arr []),
    ("description", Json.str responseText), ("tags", Json.str "")]

/-- Response post-processing of the main metadata path (Step 2, lines
141-150): parse the cleaned model text, degrading to `degradedMetadata`. -/
def synthesizeMetadata (responseText : String) : Json :=
  match parseJson (cleanModelText responseText) with
  | some metadata => metadata
  | none => degradedMetadata responseText

/-- Response post-processing of the File-API branch of the first metadata
handler (lines 92-96): `try { metadata = JSON.parse(cleanedText) } catch
(e) { metadata = {} }` — the fallback is an empty object. -/
def synthesizeMetadataFileApi (responseText : String) : Json :=
  match parseJson (cleanModelText responseText) with
  | some metadata => metadata
  | none => Json.obj []

/-- Response post-processing of the legacy metadata handler (lines
310-324), identical to the main path. -/
def synthesizeMetadataLegacy (responseText : String) : Json :=
  match parseJson (cleanModelText responseText) with
  | some metadata => metadata
  | none => degradedMetadata responseText

/-- The `description` field of a metadata value, when it is a string. -/
def metadataDescription (metadata : Json) : Option String :=
  match jsProp metadata "description" with
  | some (Json.str s) => some s
  | _ => none

/-! ### Small observers used to state counterexamples -/

/-- The length of a JSON array, when the value is one. -/
def jsonArrayLength : Json → Option Nat
  | Json.arr xs => some xs.length
  | _ => none

/-- Whether a JSON value is an array whose first element is a string. -/
def firstElementIsString : Json → Bool
  | Json.arr (Json.str _ :: _) => true
  | _ => false

/-! ## The claims -/

/-- C3: for every accepted chapter list, if `JSON.parse` of the rewrite
model's response fails after code-fence stripping, the refine handler
returns exactly the original input chapters — the input is never lost on
refinement failure. -/
theorem refine_parse_failure_returns_input (b : Json) (xs : List Json)
    (env : Option Json → FetchOutcome) (model : List Json → String)
    (hb : checkBody b = BodyCheck.okArr xs)
    (h : parseJson (cleanModelText (model (enrichStep env xs))) = none) :
    refinePOST (some b) env model = RefineResult.ok (Json.arr xs) := by
  show (match checkBody b with
        | BodyCheck.throwNull => RefineResult.error 500 "Refinement failed"
        | BodyCheck.invalid => RefineResult.error 400 "Invalid chapters data"
        | BodyCheck.okArr xs => RefineResult.ok (refineCore xs env model))
      = RefineResult.ok (Json.arr xs)
  rw [hb]
  show RefineResult.ok (refineCore xs env model) = RefineResult.ok (Json.arr xs)
  unfold refineCore
  rw [h]

/-- C3 witness: a concrete refinement run whose model response is prose,
falling back to the (empty) input chapter list. -/
theorem refine_parse_failure_returns_input_witness :
    refinePOST (some (Json.obj [("chapters", Json.arr [])]))
        (fun _ => FetchOutcome.netError) (fun _ => "The chapters look fine already.")
      = RefineResult.ok (Json.arr []) :=
  refine_parse_failure_returns_input _ _ _ _ rfl rfl

/-- C4: a model response to the Chapter Generator that is not valid JSON
after markdown code-fence stripping yields the empty chapter list in both
handler variants, with no exception escaping (the embedding is total; the
`catch` supplies the value). -/
theorem generator_parse_failure_yields_empty (s : String)
    (h : parseJson (cleanModelText s) = none) :
    generateChapters s = Json.arr [] ∧ generateChaptersLegacy s = Json.arr [] := by
  constructor
  · unfold generateChapters; rw [h]
  · unfold generateChaptersLegacy; rw [h]

/-- C4 witness: a concrete malformed model response producing `[]`. -/
theorem generator_parse_failure_yields_empty_witness :
    generateChapters "Here are your chapters: intro, demo, outro"
      = Json.arr [] :=
  (generator_parse_failure_yields_empty
    "Here are your chapters: intro, demo, outro" rfl).1

/-- C6: the refine handler's fan-out is a positional map, so the enriched
list has the input's length and order; every non-null chapter is spread
with the suggestions fetched for exactly its own `title` property (so all
its other fields, `time` and `title` included, are unchanged and the
`suggestions` field holds that fetch's result); and a failed fetch
degrades to the empty suggestion list for that chapter alone. -/
theorem refiner_fanout_enrichment (env : Option Json → FetchOutcome)
    (chapters : List Json) :
    (enrichStep env chapters).length = chapters.length ∧
    (∀ i : Nat, (enrichStep env chapters)[i]?
        = (chapters[i]?).map (enrichChapter env)) ∧
    (∀ c, c ≠ Json.null →
        enrichChapter env c
          = jsSpreadSuggestions c (fetchSuggestions (env (jsProp c "title")))) ∧
    (∀ c v key, key ≠ "suggestions" →
        lookupField key (objFields (jsSpreadSuggestions c v))
          = lookupField key (objFields c)) ∧
    (∀ c v, lookupField "suggestions" (objFields (jsSpreadSuggestions c v))
        = some v) ∧
    fetchSuggestions FetchOutcome.netError = Json.arr [] := by
  refine ⟨List.length_map _ _, fun i => List.getElem?_map _ _ _, ?_, ?_, ?_, rfl⟩
  · intro c hc
    cases c with
    | null => exact absurd rfl hc
    | bool b => rfl
    | num m e => rfl
    | str s => rfl
    | arr xs => rfl
    | obj fields => rfl
  · intro c v key hk
    exact lookupField_insertField_ne _ _ _ _ hk
  · intro c v
    exact lookupField_insertField_self _ _ _

/-- C6 witness: a concrete two-chapter fan-out against an unreachable
upstream; the second conjunct instantiates the per-chapter equation, the
third the field-preservation equation at the key `time`. -/
theorem refiner_fanout_enrichment_witness :
    (enrichStep (fun _ => FetchOutcome.netError)
        [Json.obj [("time", Json.str "0:00"), ("title", Json.str "Intro")],
         Json.obj [("time", Json.str "2:05"), ("title", Json.str "Demo")]]).length = 2 ∧
    enrichChapter (fun _ => FetchOutcome.netError)
        (Json.obj [("time", Json.str "0:00"), ("title", Json.str "Intro")])
      = jsSpreadSuggestions
          (Json.obj [("time", Json.str "0:00"), ("title", Json.str "Intro")])
          (fetchSuggestions ((fun _ => FetchOutcome.netError)
            (jsProp (Json.obj [("time", Json.str "0:00"), ("title", Json.str "Intro")])
              "title"))) ∧
    lookupField "time" (objFields (jsSpreadSuggestions
        (Json.obj [("time", Json.str "0:00"), ("title", Json.str "Intro")])
        (Json.arr [])))
      = lookupField "time"
          (objFields (Json.obj [("time", Json.str "0:00"), ("title", Json.str "Intro")])) :=
  ⟨(refiner_fanout_enrichment (fun _ => FetchOutcome.netError)
      [Json.obj [("time", Json.str "0:00"), ("title", Json.str "Intro")],
       Json.obj [("time", Json.str "2:05"), ("title", Json.str "Demo")]]).1,
   (refiner_fanout_enrichment (fun _ => FetchOutcome.netError) []).2.2.1 _
     (fun h => Json.noConfusion h),
   (refiner_fanout_enrichment (fun _ => FetchOutcome.netError) []).2.2.2.1 _ _ _
     (by decide)⟩

/-- C8: on the known envelope format
`window.google.ac.h(["q",[["a",0],["b",0]]])`, both suggestion-fetching
call sites strip the envelope, parse the capture as JSON, take index 1 and
map each pair to its first element, yielding exactly `["a", "b"]`. -/
theorem envelope_scenario_yields_suggestions :
    autocompleteGET (some "q")
        (FetchOutcome.success 200 "window.google.ac.h([\"q\",[[\"a\",0],[\"b\",0]]])")
      = ApiResponse.json 200
          (Json.obj [("suggestions", Json.arr [Json.str "a", Json.str "b"])]) ∧
    fetchSuggestions
        (FetchOutcome.success 200 "window.google.ac.h([\"q\",[[\"a\",0],[\"b\",0]]])")
      = Json.arr [Json.str "a", Json.str "b"] :=
  ⟨rfl, rfl⟩

/-- C1 counterexample: a one-chapter input refined against a model that
answers `[]` (valid JSON) yields an empty chapter array — the handler
performs no length or order check against the input, so the returned
array's length differs from the input's. -/
theorem refine_length_not_enforced_cex :
    refinePOST
        (some (Json.obj [("chapters", Json.arr
          [Json.obj [("time", Json.str "0:00"), ("title", Json.str "Intro")]])]))
        (fun _ => FetchOutcome.netError) (fun _ => "[]")
      = RefineResult.ok (Json.arr []) ∧
    jsonArrayLength (Json.arr [])
      ≠ jsonArrayLength (Json.arr
          [Json.obj [("time", Json.str "0:00"), ("title", Json.str "Intro")]]) :=
  ⟨rfl, by decide⟩

/-- C1 as amended: the refine handler returns the `JSON.parse` of the
cleaned model response verbatim whenever parsing succeeds — with no
length or order check against the input — and returns the input chapters
exactly when parsing fails; length and order preservation therefore holds
for every model response only via the model's own compliance. -/
theorem refine_output_characterization (xs : List Json)
    (env : Option Json → FetchOutcome) (model : List Json → String) :
    refinePOST (some (Json.obj [("chapters", Json.arr xs)])) env model
      = RefineResult.ok
          ((parseJson (cleanModelText (model (enrichStep env xs)))).getD
            (Json.arr xs)) := by
  show RefineResult.ok (refineCore xs env model) = _
  unfold refineCore
  cases parseJson (cleanModelText (model (enrichStep env xs))) <;> rfl

/-- C2 counterexample: a network error makes the standalone autocomplete
GET endpoint return a 500 error response, not an empty suggestion list;
and a non-200 upstream status with a well-formed body still yields a
non-empty suggestion list (the status is never inspected). -/
theorem suggestion_fetcher_failure_cex :
    autocompleteGET (some "test") FetchOutcome.netError
      = ApiResponse.json 500 (Json.obj [("error", Json.str "Autocomplete failed")]) ∧
    responseStatus (autocompleteGET (some "test") FetchOutcome.netError) ≠ 200 ∧
    fetchSuggestions (FetchOutcome.success 500 "window.google.ac.h([\"q\",[[\"a\",0]]])")
      = Json.arr [Json.str "a"] ∧
    jsonArrayLength
        (fetchSuggestions (FetchOutcome.success 500 "window.google.ac.h([\"q\",[[\"a\",0]]])"))
      ≠ some 0 :=
  ⟨rfl, by decide, rfl, by decide⟩

/-- C2 as amended: the refine handler's in-line fetcher never fails its
caller — a network error, an unmatched unparseable body, or a throw
inside the envelope branch all degrade to the empty suggestion list, and
the upstream status code is ignored entirely — while the standalone
autocomplete GET endpoint degrades to empty suggestions on an unmatched,
unparseable body, but returns a 500 error response when the fetch itself
throws or when extraction after an envelope match throws. -/
theorem suggestion_failure_policy :
    fetchSuggestions FetchOutcome.netError = Json.arr [] ∧
    (∀ (status : Nat) (body : String), envCapture body = none →
        parseJson body = none →
        fetchSuggestions (FetchOutcome.success status body) = Json.arr []) ∧
    (∀ (status : Nat) (body cap : String), envCapture body = some cap →
        envelopeSuggestions cap = Except.error () →
        fetchSuggestions (FetchOutcome.success status body) = Json.arr []) ∧
    (∀ (status status' : Nat) (body : String),
        fetchSuggestions (FetchOutcome.success status body)
          = fetchSuggestions (FetchOutcome.success status' body)) ∧
    (∀ q : String, q.isEmpty = false →
        autocompleteGET (some q) FetchOutcome.netError
          = ApiResponse.json 500 (Json.obj [("error", Json.str "Autocomplete failed")])) ∧
    (∀ (q : String) (status : Nat) (body cap : String), q.isEmpty = false →
        envCapture body = some cap →
        envelopeSuggestions cap = Except.error () →
        autocompleteGET (some q) (FetchOutcome.success status body)
          = ApiResponse.json 500 (Json.obj [("error", Json.str "Autocomplete failed")])) ∧
    (∀ (q : String) (status : Nat) (body : String), q.isEmpty = false →
        envCapture body = none →
        parseJson body = none →
        autocompleteGET (some q) (FetchOutcome.success status body)
          = ApiResponse.json 200 (Json.obj [("suggestions", Json.arr [])])) := by
  refine ⟨rfl, ?_, ?_, fun _ _ _ => rfl, ?_, ?_, ?_⟩
  · intro status body h1 h2
    show fetchSuggestionsBody body = Json.arr []
    unfold fetchSuggestionsBody
    rw [h1, h2]
  · intro status body cap h1 h2
    show fetchSuggestionsBody body = Json.arr []
    unfold fetchSuggestionsBody
    rw [h1]
    show (match envelopeSuggestions cap with
          | Except.ok items => Json.arr items
          | Except.error _ => Json.arr []) = Json.arr []
    rw [h2]
  · intro q hq
    show (if q.isEmpty = true then
            ApiResponse.json 200 (Json.obj [("suggestions", Json.arr [])])
          else autocompleteFetch FetchOutcome.netError)
        = ApiResponse.json 500 (Json.obj [("error", Json.str "Autocomplete failed")])
    rw [hq]
    rfl
  · intro q status body cap hq h1 h2
    show (if q.isEmpty = true then
            ApiResponse.json 200 (Json.obj [("suggestions", Json.arr [])])
          else autocompleteFetch (FetchOutcome.success status body))
        = ApiResponse.json 500 (Json.obj [("error", Json.str "Autocomplete failed")])
    rw [hq]
    show autocompleteFetchBody body = _
    unfold autocompleteFetchBody
    rw [h1]
    show (match envelopeSuggestions cap with
          | Except.ok items =>
            ApiResponse.json 200 (Json.obj [("suggestions", Json.arr items)])
          | Except.error _ =>
            ApiResponse.json 500 (Json.obj [("error", Json.str "Autocomplete failed")]))
        = ApiResponse.json 500 (Json.obj [("error", Json.str "Autocomplete failed")])
    rw [h2]
  · intro q status body hq h1 h2
    show (if q.isEmpty = true then
            ApiResponse.json 200 (Json.obj [("suggestions", Json.arr [])])
          else autocompleteFetch (FetchOutcome.success status body))
        = ApiResponse.json 200 (Json.obj [("suggestions", Json.arr [])])
    rw [hq]
    show autocompleteFetchBody body = _
    unfold autocompleteFetchBody
    rw [h1, h2]

/-- C2 witness: the amended policy at concrete inputs.  The body
`window.google.ac.h(5)` matches the envelope with capture `5`, whose
extraction throws (`(5)[1]` is `undefined` and `.map` on it throws): the
in-line fetcher degrades to `[]` while the GET endpoint returns 500.  The
prose body matches nothing and parses as nothing: `[]` in the fetcher, a
200 empty-suggestions response on the GET endpoint.  A network error
produces the 500 response on the GET endpoint. -/
theorem suggestion_failure_policy_witness :
    fetchSuggestions (FetchOutcome.success 200 "service unavailable") = Json.arr [] ∧
    fetchSuggestions (FetchOutcome.success 200 "window.google.ac.h(5)") = Json.arr [] ∧
    autocompleteGET (some "test") FetchOutcome.netError
      = ApiResponse.json 500 (Json.obj [("error", Json.str "Autocomplete failed")]) ∧
    autocompleteGET (some "test") (FetchOutcome.success 200 "window.google.ac.h(5)")
      = ApiResponse.json 500 (Json.obj [("error", Json.str "Autocomplete failed")]) ∧
    autocompleteGET (some "test") (FetchOutcome.success 404 "service unavailable")
      = ApiResponse.json 200 (Json.obj [("suggestions", Json.arr [])]) :=
  ⟨suggestion_failure_policy.2.1 200 "service unavailable" rfl rfl,
   suggestion_failure_policy.2.2.1 200 "window.google.ac.h(5)" "5" rfl rfl,
   suggestion_failure_policy.2.2.2.2.1 "test" rfl,
   suggestion_failure_policy.2.2.2.2.2.1 "test" 200 "window.google.ac.h(5)" "5"
     rfl rfl rfl,
   suggestion_failure_policy.2.2.2.2.2.2 "test" 404 "service unavailable"
     rfl rfl rfl⟩

/-- C5 counterexample: in the File-API branch of the metadata endpoint, a
model response that fails JSON parsing yields the empty object `{}` — not
the degraded `VideoMetadata` (which would carry the raw text as its
description). -/
theorem metadata_fileapi_fallback_cex :
    synthesizeMetadataFileApi "I cannot generate metadata for this video."
      = Json.obj [] ∧
    metadataDescription (synthesizeMetadataFileApi "I cannot generate metadata for this video.")
      = none ∧
    metadataDescription (degradedMetadata "I cannot generate metadata for this video.")
      = some "I cannot generate metadata for this video." :=
  ⟨rfl, rfl, rfl⟩

/-- C5 as amended: on a parse failure of the model response, the main
metadata path and the legacy handler return the degraded `VideoMetadata`
(empty title arrays, the raw model text as description, empty tags) and
never throw past this stage, but the File-API branch of the first handler
returns the empty object instead. -/
theorem metadata_parse_failure_fallbacks (s : String)
    (h : parseJson (cleanModelText s) = none) :
    synthesizeMetadata s = degradedMetadata s ∧
    synthesizeMetadataLegacy s = degradedMetadata s ∧
    synthesizeMetadataFileApi s = Json.obj [] := by
  refine ⟨?_, ?_, ?_⟩
  · unfold synthesizeMetadata; rw [h]
  · unfold synthesizeMetadataLegacy; rw [h]
  · unfold synthesizeMetadataFileApi; rw [h]

/-- C5 witness: the amended fallback behavior at a concrete prose
response. -/
theorem metadata_parse_failure_fallbacks_witness :
    synthesizeMetadata "Sorry, something went wrong."
      = degradedMetadata "Sorry, something went wrong." ∧
    synthesizeMetadataFileApi "Sorry, something went wrong." = Json.obj [] :=
  ⟨(metadata_parse_failure_fallbacks "Sorry, something went wrong." rfl).1,
   (metadata_parse_failure_fallbacks "Sorry, something went wrong." rfl).2.2⟩

/-- C7 counterexample: a model response that fails JSON parsing becomes
the description verbatim, so the returned description need not start with
the fixed promotional block. -/
theorem metadata_description_intro_cex :
    metadataDescription (synthesizeMetadata "hello") = some "hello" ∧
    textStartsWith "hello" fixedIntro = false :=
  ⟨rfl, rfl⟩

/-- C7 as amended: the Synthesizer passes the model's output through
verbatim — on parse success the returned metadata is exactly the parsed
model value, and on parse failure the description is the raw model text —
so the description starts with the fixed prefix only when the model's
text itself does; no prefix check or prefixing is performed. -/
theorem metadata_description_passthrough (s : String) :
    (∀ v, parseJson (cleanModelText s) = some v → synthesizeMetadata s = v) ∧
    (parseJson (cleanModelText s) = none →
        metadataDescription (synthesizeMetadata s) = some s) := by
  constructor
  · intro v h
    unfold synthesizeMetadata
    rw [h]
  · intro h
    unfold synthesizeMetadata
    rw [h]
    rfl

/-- C7 witness: the passthrough at concrete inputs — prose becomes the
description verbatim, and a parsed JSON value is returned unchanged. -/
theorem metadata_description_passthrough_witness :
    metadataDescription (synthesizeMetadata "certainly, here you go")
      = some "certainly, here you go" ∧
    synthesizeMetadata "[]" = Json.arr [] :=
  ⟨(metadata_description_passthrough "certainly, here you go").2 rfl,
   (metadata_description_passthrough "[]").1 (Json.arr []) rfl⟩

/-- C9 counterexample: on the bare JSON array `["q",[["a",0],["b",0]]]`
(no callback envelope), both call sites return `data[1]` verbatim — the
list of `[suggestion, score]` pairs — and do not map each pair to its
first element: the first element of the result is itself an array, not a
suggestion string. -/
theorem bare_json_unmapped_cex :
    fetchSuggestions (FetchOutcome.success 200 "[\"q\",[[\"a\",0],[\"b\",0]]]")
      = Json.arr [Json.arr [Json.str "a", Json.num 0 0],
                  Json.arr [Json.str "b", Json.num 0 0]] ∧
    firstElementIsString
        (fetchSuggestions (FetchOutcome.success 200 "[\"q\",[[\"a\",0],[\"b\",0]]]"))
      = false ∧
    firstElementIsString (Json.arr [Json.str "a", Json.str "b"]) = true ∧
    autocompleteGET (some "q") (FetchOutcome.success 200 "[\"q\",[[\"a\",0],[\"b\",0]]]")
      = ApiResponse.json 200 (Json.obj [("suggestions",
          Json.arr [Json.arr [Json.str "a", Json.num 0 0],
                    Json.arr [Json.str "b", Json.num 0 0]])]) :=
  ⟨rfl, rfl, rfl, rfl⟩

/-- C9 as amended: when the upstream body does not match the envelope and
parses as a JSON array of length above one, both call sites return index 1
of the outer array verbatim, without mapping inner pairs to their first
elements (that mapping happens only in the envelope branch). -/
theorem bare_json_passthrough (status : Nat) (body : String)
    (x y : Json) (rest : List Json)
    (h1 : envCapture body = none)
    (h2 : parseJson body = some (Json.arr (x :: y :: rest))) :
    fetchSuggestions (FetchOutcome.success status body) = y ∧
    (∀ q : String, q.isEmpty = false →
        autocompleteGET (some q) (FetchOutcome.success status body)
          = ApiResponse.json 200 (Json.obj [("suggestions", y)])) := by
  constructor
  · show fetchSuggestionsBody body = y
    unfold fetchSuggestionsBody
    rw [h1, h2]
  · intro q hq
    show (if q.isEmpty = true then
            ApiResponse.json 200 (Json.obj [("suggestions", Json.arr [])])
          else autocompleteFetch (FetchOutcome.success status body))
        = ApiResponse.json 200 (Json.obj [("suggestions", y)])
    rw [hq]
    show autocompleteFetchBody body = _
    unfold autocompleteFetchBody
    rw [h1, h2]

/-- C9 witness: the amended passthrough at the concrete bare-array body. -/
theorem bare_json_passthrough_witness :
    fetchSuggestions (FetchOutcome.success 200 "[\"q\",[[\"c\",0]]]")
      = Json.arr [Json.arr [Json.str "c", Json.num 0 0]] :=
  (bare_json_passthrough 200 "[\"q\",[[\"c\",0]]]" (Json.str "q")
    (Json.arr [Json.arr [Json.str "c", Json.num 0 0]]) [] rfl rfl).1

/-- C10 counterexample: a request whose body is the JSON value `null`
lacks a `chapters` field, yet destructuring `null` throws, so the handler
returns a 500 "Refinement failed" response — not the 400 "Invalid
chapters data" error. -/
theorem refine_null_body_cex :
    refinePOST (some Json.null) (fun _ => FetchOutcome.netError) (fun _ => "")
      = RefineResult.error 500 "Refinement failed" ∧
    refineResultStatus
        (refinePOST (some Json.null) (fun _ => FetchOutcome.netError) (fun _ => ""))
      ≠ 400 :=
  ⟨rfl, by decide⟩

/-- C10 as amended: for every request body other than JSON `null` whose
`chapters` property is missing or not an array, the handler returns the
400 "Invalid chapters data" error; the result is the same for every
suggestion-fetch environment and every model, i.e. the rejection happens
before any fetch or model call.  (A `null` body, and a body that is not
valid JSON at all, yield a 500 "Refinement failed" instead.) -/
theorem refine_validation_rejects_nonarray (b : Json)
    (env : Option Json → FetchOutcome) (model : List Json → String)
    (hb : b ≠ Json.null)
    (h : ∀ xs, jsProp b "chapters" ≠ some (Json.arr xs)) :
    refinePOST (some b) env model
      = RefineResult.error 400 "Invalid chapters data" := by
  have hc : checkBody b = BodyCheck.invalid := by
    cases b with
    | null => exact absurd rfl hb
    | bool v => rfl
    | num m e => rfl
    | str s => rfl
    | arr xs => rfl
    | obj fields =>
      show (match jsProp (Json.obj fields) "chapters" with
            | some (Json.arr xs) => BodyCheck.okArr xs
            | _ => BodyCheck.invalid)
          = BodyCheck.invalid
      cases hj : jsProp (Json.obj fields) "chapters" with
      | none => rfl
      | some v =>
        cases v with
        | arr xs => exact absurd hj (h xs)
        | null => rfl
        | bool _ => rfl
        | num _ _ => rfl
        | str _ => rfl
        | obj _ => rfl
  show (match checkBody b with
        | BodyCheck.throwNull => RefineResult.error 500 "Refinement failed"
        | BodyCheck.invalid => RefineResult.error 400 "Invalid chapters data"
        | BodyCheck.okArr xs => RefineResult.ok (refineCore xs env model))
      = RefineResult.error 400 "Invalid chapters data"
  rw [hc]

/-- C10 witness: a concrete body without a `chapters` field is rejected
with the 400 error, for an arbitrary environment and model. -/
theorem refine_validation_rejects_nonarray_witness :
    refinePOST (some (Json.obj [("note", Json.str "no chapters here")]))
        (fun _ => FetchOutcome.netError) (fun _ => "[]")
      = RefineResult.error 400 "Invalid chapters data" :=
  refine_validation_rejects_nonarray _ _ _
    (fun h => Json.noConfusion h)
    (fun _ h => Option.noConfusion h)
